import Mathlib

/-
Verification of the Spotify MCP server (TypeScript sources) against its
natural-language specification.  The TypeScript code is shallowly embedded:
pure functions become Lean functions, the token cache becomes explicit state
passing, fallible code returns `Except`, and the effects that matter to the
claims (network requests, script executions) are reified as values.
-/

set_option maxRecDepth 4096

/-- Error codes of the MCP SDK that the server actually uses
(`ErrorCode.InvalidParams`, `ErrorCode.MethodNotFound`, `ErrorCode.InternalError`). -/
inductive MCode where
  | invalidParams
  | methodNotFound
  | internalError
deriving DecidableEq, Repr

/-- `McpError` as thrown by the server: an error code plus a message string. -/
structure McpError where
  code : MCode
  message : String
deriving DecidableEq, Repr

/-- JavaScript `s.startsWith(pre)`. -/
def jsStartsWith (s pre : String) : Bool :=
  pre.data.isPrefixOf s.data

/-- JavaScript `String.prototype.split` with a single-character separator,
on the character list of the string.  `[] ↦ [[]]` matches JS
(`"".split(':') === [""]`). -/
def jsSplit (sep : Char) : List Char → List (List Char)
  | [] => [[]]
  | c :: cs =>
    let r := jsSplit sep cs
    if c = sep then [] :: r else (c :: r.headD []) :: r.tail

/-- The identifier-normalization pattern shared by every handler:
`id.startsWith(pre) ? id.split(':')[2] : id`. -/
def extractId (pre : String) (s : String) : String :=
  if jsStartsWith s pre then ⟨(jsSplit ':' s.data).getD 2 []⟩ else s

/-- `ArtistsHandler.extractArtistId` (src/src/handlers/artists.ts). -/
def extractArtistId (s : String) : String := extractId "spotify:artist:" s

/-- `TracksHandler.extractTrackId` (src/src/handlers/tracks.ts). -/
def extractTrackId (s : String) : String := extractId "spotify:track:" s

/-- `AlbumsHandler.extractAlbumId` (albums handler source). -/
def extractAlbumId (s : String) : String := extractId "spotify:album:" s

/-- `AudiobooksHandler.extractAudiobookId` (src/src/handlers/audiobooks.ts). -/
def extractAudiobookId (s : String) : String := extractId "spotify:audiobook:" s

/-- Uppercase hexadecimal digit, as produced by percent-encoding. -/
def hexDigit (n : Nat) : Char :=
  if n < 10 then Char.ofNat (48 + n) else Char.ofNat (55 + n)

/-- A percent-escape `%XY` for one byte value. -/
def percentHexL (n : Nat) : List Char := ['%', hexDigit (n / 16), hexDigit (n % 16)]

/-- UTF-8 bytes of a character (as `Nat`s); percent-encoders escape per byte. -/
def utf8Bytes (c : Char) : List Nat :=
  let n := c.toNat
  if n < 128 then [n]
  else if n < 2048 then [192 + n / 64, 128 + n % 64]
  else if n < 65536 then [224 + n / 4096, 128 + (n / 64) % 64, 128 + n % 64]
  else [240 + n / 262144, 128 + (n / 4096) % 64, 128 + (n / 64) % 64, 128 + n % 64]

/-- ASCII letters and digits. -/
def isAsciiAlnum (c : Char) : Bool :=
  (65 ≤ c.toNat ∧ c.toNat ≤ 90) ∨ (97 ≤ c.toNat ∧ c.toNat ≤ 122) ∨
    (48 ≤ c.toNat ∧ c.toNat ≤ 57)

/-- Characters left unescaped by JavaScript `encodeURIComponent`. -/
def uriUnreserved (c : Char) : Bool :=
  isAsciiAlnum c || c = '-' || c = '_' || c = '.' || c = '!' || c = '~' ||
    c = '*' || c = '\'' || c = '(' || c = ')'

/-- Characters left unescaped by `URLSearchParams` serialization
(application/x-www-form-urlencoded). -/
def formUnreserved (c : Char) : Bool :=
  isAsciiAlnum c || c = '*' || c = '-' || c = '.' || c = '_'

/-- Per-character output of `encodeURIComponent` (model of the JS builtin). -/
def uriEncCharL (c : Char) : List Char :=
  if uriUnreserved c then [c] else ((utf8Bytes c).map percentHexL).flatten

/-- Model of JavaScript `encodeURIComponent`. -/
def encodeURIComponent (s : String) : String :=
  ⟨(s.data.map uriEncCharL).flatten⟩

/-- Per-character output of `URLSearchParams` percent-encoding
(space becomes `+`). -/
def formEncCharL (c : Char) : List Char :=
  if c = ' ' then ['+']
  else if formUnreserved c then [c]
  else ((utf8Bytes c).map percentHexL).flatten

/-- Model of the `URLSearchParams` serialization applied to one key or value. -/
def formEncode (s : String) : String :=
  ⟨(s.data.map formEncCharL).flatten⟩

/-- The scalar values that reach `buildQueryString` (`string | number | boolean`). -/
inductive Scalar where
  | str (s : String)
  | num (n : Int)
  | boolean (b : Bool)
deriving DecidableEq, Repr

/-- JavaScript `value.toString()` on a query scalar. -/
def Scalar.toStr : Scalar → String
  | .str s => s
  | .num n => toString n
  | .boolean true => "true"
  | .boolean false => "false"

/-- One `key=value` pair as serialized by `URLSearchParams`. -/
def encodePair (k : String) (v : Scalar) : String :=
  formEncode k ++ "=" ++ formEncode v.toStr

/-- JavaScript `Array.prototype.flatten(sep)`. -/
def jsJoin (sep : String) : List String → String
  | [] => ""
  | [x] => x
  | x :: xs => x ++ sep ++ jsJoin sep xs

/-- `SpotifyApi.buildQueryString` (src/src/utils/api.ts): skip `undefined`
values, serialize the rest with `URLSearchParams`, and prepend `?` when the
serialized query is a non-empty string. -/
def buildQueryString (params : List (String × Option Scalar)) : String :=
  let pairs := params.filterMap (fun kv => kv.2.map (encodePair kv.1))
  let queryString := jsJoin "&" pairs
  if queryString = "" then "" else "?" ++ queryString

/-- `TokenInfo` (src/src/types/common.ts); times are milliseconds. -/
structure TokenInfo where
  accessToken : String
  expiresAt : Int
deriving DecidableEq, Repr

/-- The renewal branch of `AuthManager.getAccessToken` (src/src/utils/auth.ts):
a POST to the token endpoint, modeled by its result `exchange`.  Returns the
call result, the cache state after the call, and the number of network calls
issued (always 1 here). -/
def renewToken (cache : Option TokenInfo) (now : Int)
    (exchange : Except String (String × Int)) :
    Except McpError String × Option TokenInfo × Nat :=
  match exchange with
  | .ok (tok, expiresIn) => (.ok tok, some ⟨tok, now + expiresIn * 1000⟩, 1)
  | .error e =>
    (.error ⟨.internalError, "Failed to get Spotify access token: " ++ e⟩, cache, 1)

/-- `AuthManager.getAccessToken` (src/src/utils/auth.ts): return the cached
token while `Date.now() < expiresAt`, otherwise perform one exchange call. -/
def getAccessToken (cache : Option TokenInfo) (now : Int)
    (exchange : Except String (String × Int)) :
    Except McpError String × Option TokenInfo × Nat :=
  match cache with
  | some t =>
    if now < t.expiresAt then (.ok t.accessToken, some t, 0)
    else renewToken cache now exchange
  | none => renewToken cache now exchange

/-- The error object delivered by the `node-osascript` callback; only its
`message` field is inspected by the server (possibly absent). -/
structure OsaError where
  message : Option String
deriving DecidableEq, Repr

/-- Boolean infix test on lists (needle occurs contiguously in hay). -/
def isInfixL (needle : List Char) : List Char → Bool
  | [] => needle.isEmpty
  | c :: cs => needle.isPrefixOf (c :: cs) || isInfixL needle cs

/-- JavaScript `s.includes(sub)`. -/
def jsIncludes (s sub : String) : Bool :=
  isInfixL sub.data s.data

/-- JavaScript truthiness of `err.message` (absent or empty string is falsy). -/
def jsTruthyMsg : Option String → Bool
  | none => false
  | some s => !(s == "")

/-- The error translation inside `SpotifyServer.executeAppleScript`
(src/src/index.ts lines 74-88): a message mentioning code `-1728` becomes the
distinct not-running error, anything else the generic execution failure
carrying the runtime message (or `Unknown error` when it is falsy). -/
def translateOsaError (err : OsaError) : McpError :=
  if jsTruthyMsg err.message ∧ jsIncludes (err.message.getD "") "-1728" then
    ⟨.internalError, "Spotify application not found or not running."⟩
  else
    ⟨.internalError, "AppleScript execution failed: " ++
      (if jsTruthyMsg err.message then err.message.getD "" else "Unknown error")⟩

/-- Arguments of `get_multiple_artists` (src/src/types/artists.ts). -/
structure MultipleArtistsArgs where
  ids : List String
deriving Repr

/-- Arguments of `get_multiple_albums` (src/src/types/albums.ts). -/
structure MultipleAlbumsArgs where
  ids : List String
deriving Repr

/-- Arguments of `get_multiple_audiobooks` (src/src/types/audiobooks.ts). -/
structure MultipleAudiobooksArgs where
  ids : List String
  market : Option String
deriving Repr

/-- Arguments of `get_artist_top_tracks` (src/src/types/artists.ts). -/
structure ArtistTopTracksArgs where
  id : String
  market : Option String
deriving Repr

/-- Arguments of `get_artist_albums` (src/src/types/artists.ts). -/
structure ArtistAlbumsArgs where
  id : String
  include_groups : Option (List String)
  limit : Option Int
  offset : Option Int
deriving Repr

/-- Arguments of `get_album_tracks` (src/src/types/albums.ts). -/
structure AlbumTracksArgs where
  id : String
  limit : Option Int
  offset : Option Int
deriving Repr

/-- Arguments of `get_new_releases` (src/src/types/albums.ts). -/
structure NewReleasesArgs where
  country : Option String
  limit : Option Int
  offset : Option Int
deriving Repr

/-- Arguments of `get_recommendations` (src/src/types/tracks.ts). -/
structure RecommendationsArgs where
  seed_tracks : Option (List String)
  seed_artists : Option (List String)
  seed_genres : Option (List String)
  limit : Option Int
deriving Repr

/-- Arguments of `search` (src/src/types/tracks.ts). -/
structure SearchArgs where
  query : String
  type : String
  limit : Option Int
deriving Repr

/-- `ArtistsHandler.getMultipleArtists` (src/src/handlers/artists.ts).  A
handler is embedded as a pure function returning either the `McpError` it
throws or the path of the single HTTP request it hands to
`SpotifyApi.makeRequest`; an `.error` result means the HTTP client is never
reached. -/
def getMultipleArtists (args : MultipleArtistsArgs) : Except McpError String :=
  if args.ids.length = 0 then
    .error ⟨.invalidParams, "At least one artist ID must be provided"⟩
  else if args.ids.length > 50 then
    .error ⟨.invalidParams, "Maximum of 50 artist IDs allowed"⟩
  else
    .ok ("/artists?ids=" ++ jsJoin "," (args.ids.map extractArtistId))

/-- `AlbumsHandler.getMultipleAlbums` (albums handler source). -/
def getMultipleAlbums (args : MultipleAlbumsArgs) : Except McpError String :=
  if args.ids.length = 0 then
    .error ⟨.invalidParams, "At least one album ID must be provided"⟩
  else if args.ids.length > 20 then
    .error ⟨.invalidParams, "Maximum of 20 album IDs allowed"⟩
  else
    .ok ("/albums?ids=" ++ jsJoin "," (args.ids.map extractAlbumId))

/-- `AudiobooksHandler.getMultipleAudiobooks` (src/src/handlers/audiobooks.ts). -/
def getMultipleAudiobooks (args : MultipleAudiobooksArgs) : Except McpError String :=
  if args.ids.length = 0 then
    .error ⟨.invalidParams, "At least one audiobook ID must be provided"⟩
  else if args.ids.length > 50 then
    .error ⟨.invalidParams, "Maximum of 50 audiobook IDs allowed"⟩
  else
    .ok ("/audiobooks?ids=" ++ jsJoin "," (args.ids.map extractAudiobookId) ++
      buildQueryString [("market", args.market.map .str)])

/-- `ArtistsHandler.getArtistTopTracks` (src/src/handlers/artists.ts): the
guard is JavaScript `if (!args.market)`, so an absent market and an empty
market string are both rejected. -/
def getArtistTopTracks (args : ArtistTopTracksArgs) : Except McpError String :=
  let artistId := extractArtistId args.id
  match args.market with
  | none => .error ⟨.invalidParams, "market parameter is required for top tracks"⟩
  | some m =>
    if m = "" then
      .error ⟨.invalidParams, "market parameter is required for top tracks"⟩
    else
      .ok ("/artists/" ++ artistId ++ "/top-tracks?market=" ++ m)

/-- `ArtistsHandler.getArtistAlbums` (src/src/handlers/artists.ts). -/
def getArtistAlbums (args : ArtistAlbumsArgs) : Except McpError String :=
  let artistId := extractArtistId args.id
  let limit := args.limit.getD 20
  let offset := args.offset.getD 0
  if limit < 1 ∨ limit > 50 then
    .error ⟨.invalidParams, "Limit must be between 1 and 50"⟩
  else if offset < 0 then
    .error ⟨.invalidParams, "Offset must be non-negative"⟩
  else
    .ok ("/artists/" ++ artistId ++ "/albums" ++
      buildQueryString [("limit", some (.num limit)), ("offset", some (.num offset)),
        ("include_groups", args.include_groups.map (fun g => .str (jsJoin "," g)))])

/-- `AlbumsHandler.getAlbumTracks` (albums handler source). -/
def getAlbumTracks (args : AlbumTracksArgs) : Except McpError String :=
  let albumId := extractAlbumId args.id
  let limit := args.limit.getD 20
  let offset := args.offset.getD 0
  if limit < 1 ∨ limit > 50 then
    .error ⟨.invalidParams, "Limit must be between 1 and 50"⟩
  else if offset < 0 then
    .error ⟨.invalidParams, "Offset must be non-negative"⟩
  else
    .ok ("/albums/" ++ albumId ++ "/tracks" ++
      buildQueryString [("limit", some (.num limit)), ("offset", some (.num offset))])

/-- `AlbumsHandler.getNewReleases` (albums handler source). -/
def getNewReleases (args : NewReleasesArgs) : Except McpError String :=
  let limit := args.limit.getD 20
  let offset := args.offset.getD 0
  if limit < 1 ∨ limit > 50 then
    .error ⟨.invalidParams, "Limit must be between 1 and 50"⟩
  else if offset < 0 then
    .error ⟨.invalidParams, "Offset must be non-negative"⟩
  else
    .ok ("/browse/new-releases" ++
      buildQueryString [("country", args.country.map .str),
        ("limit", some (.num limit)), ("offset", some (.num offset))])

/-- `TracksHandler.getRecommendations` (src/src/handlers/tracks.ts). -/
def getRecommendations (args : RecommendationsArgs) : Except McpError String :=
  let seedTracks := args.seed_tracks.getD []
  let seedArtists := args.seed_artists.getD []
  let seedGenres := args.seed_genres.getD []
  let limit := args.limit.getD 20
  if seedTracks.length + seedArtists.length + seedGenres.length = 0 then
    .error ⟨.invalidParams, "At least one seed (tracks, artists, or genres) must be provided"⟩
  else if limit < 1 ∨ limit > 100 then
    .error ⟨.invalidParams, "Limit must be between 1 and 100"⟩
  else
    let trackIds := seedTracks.map extractTrackId
    let artistIds := seedArtists.map extractArtistId
    .ok ("/recommendations" ++ buildQueryString
      [("seed_tracks", if trackIds.length ≠ 0 then some (.str (jsJoin "," trackIds)) else none),
       ("seed_artists", if artistIds.length ≠ 0 then some (.str (jsJoin "," artistIds)) else none),
       ("seed_genres", if seedGenres.length ≠ 0 then some (.str (jsJoin "," seedGenres)) else none),
       ("limit", some (.num limit))])

/-- `TracksHandler.search` (src/src/handlers/tracks.ts): note the query is
passed through `encodeURIComponent` before `buildQueryString` encodes it a
second time. -/
def search (args : SearchArgs) : Except McpError String :=
  let limit := args.limit.getD 20
  if limit < 1 ∨ limit > 50 then
    .error ⟨.invalidParams, "Limit must be between 1 and 50"⟩
  else
    .ok ("/search" ++ buildQueryString
      [("q", some (.str (encodeURIComponent args.query))),
       ("type", some (.str args.type)),
       ("limit", some (.num limit))])

/-- A JavaScript value as carried in a tool call's `arguments` object and in
the JSON bodies returned by the remote API. -/
inductive JsVal where
  | str (s : String)
  | num (n : Int)
  | boolean (b : Bool)
  | arr (xs : List JsVal)
  | obj (fields : List (String × JsVal))
  | jsNull
  | jsUndefined

/-- A JavaScript object viewed as an ordered field list. -/
def JsArgs := List (String × JsVal)

/-- JavaScript `field in args` (presence of the key, whatever its value). -/
def hasKey (a : JsArgs) (field : String) : Bool :=
  a.any (fun kv => kv.1 = field)

/-- `SpotifyServer.validateArgs` (src/src/index.ts lines 42-60): reject an
absent arguments object, then reject at the first declared-required field that
is not present; values are never inspected. -/
def validateArgs (args : Option JsArgs) (requiredFields : List String) :
    Except McpError JsArgs :=
  match args with
  | none => .error ⟨.invalidParams, "Arguments are required"⟩
  | some a =>
    match requiredFields.find? (fun f => !(hasKey a f)) with
    | some f => .error ⟨.invalidParams, "Missing required field: " ++ f⟩
    | none => .ok a

/-- The dispatch table of `setupToolHandlers` (src/src/index.ts): every `case`
label of the tool-call switch together with the `requiredFields` list passed to
`validateArgs` there (equal to the `required` list of the declared input
schema).  Tools with an empty list either skip validation or validate
`request.params.arguments || {}` against `[]`, so they never fail validation. -/
def toolRequiredFields : List (String × List String) :=
  [("get_access_token", []),
   ("search", ["query", "type"]),
   ("get_artist", ["id"]),
   ("get_multiple_artists", ["ids"]),
   ("get_artist_top_tracks", ["id"]),
   ("get_artist_related_artists", ["id"]),
   ("get_artist_albums", ["id"]),
   ("get_album", ["id"]),
   ("get_album_tracks", ["id"]),
   ("get_multiple_albums", ["ids"]),
   ("get_track", ["id"]),
   ("get_available_genres", []),
   ("get_new_releases", []),
   ("get_recommendations", []),
   ("get_audiobook", ["id"]),
   ("get_multiple_audiobooks", ["ids"]),
   ("get_audiobook_chapters", ["id"]),
   ("get_playlist", ["id"]),
   ("get_playlist_tracks", ["id"]),
   ("get_playlist_items", ["id"]),
   ("modify_playlist", ["id"]),
   ("add_tracks_to_playlist", ["id", "uris"]),
   ("remove_tracks_from_playlist", ["id", "tracks"]),
   ("get_current_user_playlists", []),
   ("spotify_play_pause", []),
   ("spotify_next", []),
   ("spotify_previous", []),
   ("spotify_get_current_track", []),
   ("spotify_play_track", ["uri"])]

/-- The routing and validation phase of the tool-call switch
(src/src/index.ts lines 399-586): an undeclared name hits the `default` case
and fails with method-not-found; a declared name validates its required fields
first, and only an `.ok` result reaches the tool's handler. -/
def dispatchRoute (name : String) (args : Option JsArgs) :
    Except McpError JsArgs :=
  match toolRequiredFields.lookup name with
  | none => .error ⟨.methodNotFound, "Unknown tool: " ++ name⟩
  | some req => if req.isEmpty then .ok (args.getD []) else validateArgs args req

/-- JSON string escaping (model of the escaping done by `JSON.stringify`). -/
def escChar (c : Char) : List Char :=
  if c = '"' then ['\\', '"']
  else if c = '\\' then ['\\', '\\']
  else if c = '\n' then ['\\', 'n']
  else [c]

/-- Escape a string for inclusion in JSON output. -/
def escapeJson (s : String) : String := ⟨(s.data.map escChar).flatten⟩

/-- A run of spaces used for pretty-printing indentation. -/
def indentStr (n : Nat) : String := ⟨List.replicate n ' '⟩

/-- Model of `JSON.stringify(value, null, 2)` at nesting depth `d`. -/
def stringifyAt (d : Nat) : JsVal → String
  | .str s => "\"" ++ escapeJson s ++ "\""
  | .num n => toString n
  | .boolean true => "true"
  | .boolean false => "false"
  | .jsNull => "null"
  | .jsUndefined => "null"
  | .arr [] => "[]"
  | .arr (x :: xs) =>
    "[\n" ++
      jsJoin ",\n" (((x :: xs).attach).map
        (fun (y : {v // v ∈ x :: xs}) =>
          have hy : sizeOf y.1 < 1 + sizeOf (x :: xs) := by
            have := List.sizeOf_lt_of_mem y.2
            omega
          indentStr (2 * (d + 1)) ++ stringifyAt (d + 1) y.1)) ++
      "\n" ++ indentStr (2 * d) ++ "]"
  | .obj [] => "\x7b\x7d"
  | .obj (f :: fs) =>
    "\x7b\n" ++
      jsJoin ",\n" (((f :: fs).attach).map
        (fun (kv : {v // v ∈ f :: fs}) =>
          have hkv : sizeOf kv.1.2 < 1 + sizeOf (f :: fs) := by
            have h1 := List.sizeOf_lt_of_mem kv.2
            have h2 : sizeOf kv.1.2 < sizeOf kv.1 := by
              obtain ⟨a, b⟩ := kv.1
              simp only [Prod.mk.sizeOf_spec]
              omega
            omega
          indentStr (2 * (d + 1)) ++ "\"" ++ escapeJson kv.1.1 ++ "\": " ++
          stringifyAt (d + 1) kv.1.2)) ++
      "\n" ++ indentStr (2 * d) ++ "\x7d"
termination_by v => sizeOf v
decreasing_by
  · simpa [JsVal.arr.sizeOf_spec] using hy
  · simpa [JsVal.obj.sizeOf_spec] using hkv

/-- Model of `JSON.stringify(value, null, 2)`. -/
def stringifyPretty (v : JsVal) : String := stringifyAt 0 v

/-- Extract the scalar a JavaScript property contributes to a query mapping. -/
def lookupScalar (a : JsArgs) (k : String) : Option Scalar :=
  match a.lookup k with
  | some (.str s) => some (.str s)
  | some (.num n) => some (.num n)
  | some (.boolean b) => some (.boolean b)
  | _ => none

/-- Modelled from the spec: `PlaylistsHandler.getCurrentUserPlaylists` is
missing from the available sources (only its call site in src/src/index.ts
exists), so its request construction is taken from the specification, which
lists `/me/playlists` among the consumed endpoints with optional `limit` and
`offset` query parameters. -/
def getCurrentUserPlaylistsPath (a : JsArgs) : String :=
  "/me/playlists" ++
    buildQueryString [("limit", lookupScalar a "limit"), ("offset", lookupScalar a "offset")]

/-- The complete `get_current_user_playlists` tool call: routing/validation,
the handler's request, the upstream response, and the pretty-printed text put
in the response envelope (`JSON.stringify(result, null, 2)`). -/
def callGetCurrentUserPlaylists (args : Option JsArgs)
    (upstream : String → Except McpError JsVal) : Except McpError String :=
  match dispatchRoute "get_current_user_playlists" args with
  | .error e => .error e
  | .ok a =>
    match upstream (getCurrentUserPlaylistsPath a) with
    | .error e => .error e
    | .ok j => .ok (stringifyPretty j)

/-- The AppleScript template built by the `spotify_play_track` case
(src/src/index.ts lines 557-576), with the URI interpolated. -/
def playTrackScript (uri : String) : String :=
  "set currentAppID to \"\"\n" ++
  "try\n" ++
  "  tell application \"System Events\"\n" ++
  "    set frontApp to first application process whose frontmost is true\n" ++
  "    set currentAppID to bundle identifier of frontApp\n" ++
  "  end tell\n" ++
  "end try\n" ++
  "tell application \"Spotify\" to play track \"" ++ uri ++ "\"\n" ++
  "delay 1.0\n" ++
  "if currentAppID is not \"\" then\n" ++
  "  try\n" ++
  "    tell application id currentAppID to activate\n" ++
  "  end try\n" ++
  "end if"

/-- The `spotify_play_track` case after `validateArgs` has supplied `uri`
(src/src/index.ts lines 551-578): the guard is
`if (!args.uri || !args.uri.startsWith('spotify:track:'))`.  The second
component lists the scripts handed to the scripting runtime. -/
def spotifyPlayTrackCall (uri : String) : Except McpError Unit × List String :=
  if uri = "" ∨ jsStartsWith uri "spotify:track:" = false then
    (.error ⟨.invalidParams,
      "Invalid Spotify track URI format. Expected \"spotify:track:TRACK_ID\"."⟩, [])
  else
    (.ok (), [playTrackScript uri])

theorem strExt {s t : String} (h : s.data = t.data) : s = t := by
  cases s; cases t; exact congrArg String.mk h

theorem jsSplit_ne_nil (sep : Char) (l : List Char) : jsSplit sep l ≠ [] := by
  induction l with
  | nil => simp [jsSplit]
  | cons c cs ih =>
    simp only [jsSplit]
    by_cases h : c = sep <;> simp [h]

theorem jsSplit_cons_ne (sep c : Char) (cs : List Char) (h : ¬ c = sep) :
    jsSplit sep (c :: cs) =
      (c :: (jsSplit sep cs).headD []) :: (jsSplit sep cs).tail := by
  simp [jsSplit, h]

theorem jsSplit_sepFree (sep : Char) (l : List Char) (h : sep ∉ l) :
    jsSplit sep l = [l] := by
  induction l with
  | nil => rfl
  | cons c cs ih =>
    have hc : ¬ c = sep := fun he => h (he ▸ List.mem_cons_self c cs)
    have hcs : sep ∉ cs := fun hm => h (List.mem_cons_of_mem c hm)
    rw [jsSplit_cons_ne sep c cs hc, ih hcs]
    rfl

theorem jsSplit_chunk (sep : Char) (xs ys : List Char) (h : sep ∉ xs) :
    jsSplit sep (xs ++ sep :: ys) = xs :: jsSplit sep ys := by
  induction xs with
  | nil => simp [jsSplit]
  | cons x xt ih =>
    have hx : ¬ x = sep := fun he => h (he ▸ List.mem_cons_self x xt)
    have hxt : sep ∉ xt := fun hm => h (List.mem_cons_of_mem x hm)
    rw [List.cons_append, jsSplit_cons_ne sep x (xt ++ sep :: ys) hx, ih hxt]
    rfl

theorem isPrefixOf_append (l t : List Char) : l.isPrefixOf (l ++ t) = true := by
  induction l with
  | nil => simp [List.isPrefixOf]
  | cons c cs ih => simp [List.isPrefixOf, ih]

theorem jsStartsWith_append (p t : String) : jsStartsWith (p ++ t) p = true := by
  unfold jsStartsWith
  rw [String.data_append]
  exact isPrefixOf_append _ _

theorem find?_isSome_of_exists {α : Type} {p : α → Bool} {l : List α}
    (h : ∃ x ∈ l, p x = true) : ∃ y, l.find? p = some y := by
  induction l with
  | nil => obtain ⟨x, hx, _⟩ := h; cases hx
  | cons a t ih =>
    by_cases hp : p a = true
    · exact ⟨a, by simp [List.find?, hp]⟩
    · obtain ⟨x, hx, hpx⟩ := h
      have hxt : x ∈ t := by
        cases List.mem_cons.mp hx with
        | inl he => exact absurd (he ▸ hpx) hp
        | inr hm => exact hm
      obtain ⟨y, hy⟩ := ih ⟨x, hxt, hpx⟩
      refine ⟨y, ?_⟩
      rw [List.find?_cons_of_neg _ (by simpa using hp)]
      exact hy

theorem lookup_eq_none_of_not_mem {β : Type} (name : String)
    (l : List (String × β)) (h : name ∉ l.map Prod.fst) : l.lookup name = none := by
  induction l with
  | nil => rfl
  | cons kv t ih =>
    have h1 : ¬ name = kv.1 := fun he => h (by simp [he])
    have h2 : name ∉ t.map Prod.fst := fun hm => h (by rw [List.map_cons]; exact List.mem_cons_of_mem _ hm)
    have hbeq : (name == kv.1) = false := beq_eq_false_iff_ne.mpr h1
    simp [List.lookup, hbeq, ih h2]

theorem utf8Bytes_ne_nil (c : Char) : utf8Bytes c ≠ [] := by
  unfold utf8Bytes
  by_cases h1 : c.toNat < 128
  · simp [h1]
  · by_cases h2 : c.toNat < 2048
    · simp [h1, h2]
    · by_cases h3 : c.toNat < 65536
      · simp [h1, h2, h3]
      · simp [h1, h2, h3]

theorem flatten_uriEnc_id (l : List Char) (h : ∀ c ∈ l, uriUnreserved c = true) :
    (l.map uriEncCharL).flatten = l := by
  induction l with
  | nil => rfl
  | cons c cs ih =>
    have hc : uriUnreserved c = true := h c (List.mem_cons_self c cs)
    have hcs : ∀ x ∈ cs, uriUnreserved x = true :=
      fun x hx => h x (List.mem_cons_of_mem c hx)
    simp [uriEncCharL, hc, ih hcs]

theorem percent_mem_uriEncCharL (c : Char) (h : uriUnreserved c = false) :
    '%' ∈ uriEncCharL c := by
  unfold uriEncCharL
  rw [if_neg (by simp [h])]
  cases hb : utf8Bytes c with
  | nil => exact absurd hb (utf8Bytes_ne_nil c)
  | cons b bs =>
    rw [List.map_cons, List.flatten_cons]
    exact List.mem_append_left _ (by simp [percentHexL])

theorem encodeURIComponent_id_or_percent (s : String) (h : encodeURIComponent s ≠ s) :
    '%' ∈ (encodeURIComponent s).data := by
  by_cases hall : ∀ c ∈ s.data, uriUnreserved c = true
  · exact absurd (strExt (show (encodeURIComponent s).data = s.data from
      flatten_uriEnc_id s.data hall)) h
  · push_neg at hall
    obtain ⟨c, hc, hcu⟩ := hall
    have hcf : uriUnreserved c = false := by
      cases hcuv : uriUnreserved c with
      | false => rfl
      | true => exact absurd hcuv hcu
    show '%' ∈ (s.data.map uriEncCharL).flatten
    exact List.mem_flatten.mpr ⟨uriEncCharL c, List.mem_map_of_mem _ hc,
      percent_mem_uriEncCharL c hcf⟩

theorem formEncCharL_len_pos (c : Char) : 1 ≤ (formEncCharL c).length := by
  unfold formEncCharL
  split
  · simp
  · split
    · simp
    · cases hb : utf8Bytes c with
      | nil => exact absurd hb (utf8Bytes_ne_nil c)
      | cons b bs => simp [percentHexL]

theorem formEncCharL_percent : formEncCharL '%' = ['%', '2', '5'] := by decide

theorem flatten_form_len_ge (l : List Char) :
    l.length ≤ ((l.map formEncCharL).flatten).length := by
  induction l with
  | nil => simp
  | cons c cs ih =>
    rw [List.map_cons, List.flatten_cons, List.length_cons, List.length_append]
    have := formEncCharL_len_pos c
    omega

theorem flatten_form_len_gt (l : List Char) (h : '%' ∈ l) :
    l.length < ((l.map formEncCharL).flatten).length := by
  induction l with
  | nil => cases h
  | cons c cs ih =>
    rw [List.map_cons, List.flatten_cons, List.length_cons, List.length_append]
    by_cases hc : c = '%'
    · subst hc
      rw [formEncCharL_percent]
      have hge := flatten_form_len_ge cs
      have h3 : (['%', '2', '5'] : List Char).length = 3 := rfl
      omega
    · have hcs : '%' ∈ cs := by
        cases List.mem_cons.mp h with
        | inl he => exact absurd he.symm hc
        | inr hm => exact hm
      have := formEncCharL_len_pos c
      have := ih hcs
      omega

theorem formEncode_ne_of_percent (s : String) (h : '%' ∈ s.data) :
    formEncode s ≠ s := by
  intro he
  have hlen : s.data.length < ((s.data.map formEncCharL).flatten).length :=
    flatten_form_len_gt s.data h
  have hdata : (formEncode s).data = s.data := by rw [he]
  have : (formEncode s).data = (s.data.map formEncCharL).flatten := rfl
  rw [this] at hdata
  rw [hdata] at hlen
  omega

theorem jsJoin_amp_ne_empty (k : String) (v : Scalar) (ps : List String) :
    jsJoin "&" (encodePair k v :: ps) ≠ "" := by
  have hlen : 0 < (jsJoin "&" (encodePair k v :: ps)).length := by
    cases ps with
    | nil =>
      show 0 < (encodePair k v).length
      simp [encodePair, String.length_append,
        show ("=" : String).length = 1 from rfl]
    | cons p pt =>
      show 0 < (encodePair k v ++ "&" ++ jsJoin "&" (p :: pt)).length
      simp [encodePair, String.length_append,
        show ("=" : String).length = 1 from rfl]
  intro h
  rw [h] at hlen
  simp at hlen

theorem buildQueryString_shape (params : List (String × Option Scalar)) :
    buildQueryString params =
      match params.filterMap (fun kv => kv.2.map (encodePair kv.1)) with
      | [] => ""
      | ps => "?" ++ jsJoin "&" ps := by
  unfold buildQueryString
  cases h : params.filterMap (fun kv => kv.2.map (encodePair kv.1)) with
  | nil => simp [jsJoin]
  | cons p ps =>
    have hp : p ∈ params.filterMap (fun kv => kv.2.map (encodePair kv.1)) := by
      rw [h]; exact List.mem_cons_self p ps
    obtain ⟨a, _, ha⟩ := List.mem_filterMap.mp hp
    obtain ⟨v, _, hpv⟩ := Option.map_eq_some'.mp ha
    have hne : jsJoin "&" (p :: ps) ≠ "" := by
      rw [← hpv]; exact jsJoin_amp_ne_empty a.1 v ps
    simp [hne]

theorem filterMap_skip_none {α β γ : Type} (g : α × Option β → Option γ)
    (hg : ∀ a, (a : α × Option β).2 = none → g a = none)
    (params : List (α × Option β)) :
    (params.filter (fun kv => kv.2.isSome)).filterMap g = params.filterMap g := by
  induction params with
  | nil => rfl
  | cons kv t ih =>
    cases hv : kv.2 with
    | none =>
      rw [List.filterMap_cons]
      rw [hg kv hv]
      have : (kv.2.isSome : Bool) = false := by rw [hv]; rfl
      simp [List.filter_cons, this, ih]
    | some b =>
      have : (kv.2.isSome : Bool) = true := by rw [hv]; rfl
      simp [List.filter_cons, this, List.filterMap_cons, ih]

/-- C2 (amended): identifier normalization returns the third colon-delimited
segment of a prefixed identifier — which is exactly `X` whenever `X` contains
no colon — and is the identity on every string that does not start with the
handler's expected `scheme:kind:` prefix. -/
theorem identifier_normalization (X s : String) :
    (X.data.contains ':' = false →
      extractArtistId ("spotify:artist:" ++ X) = X ∧
      extractTrackId ("spotify:track:" ++ X) = X) ∧
    (jsStartsWith s "spotify:artist:" = false → extractArtistId s = s) ∧
    (jsStartsWith s "spotify:track:" = false → extractTrackId s = s) := by
  refine ⟨fun h => ⟨?_, ?_⟩, fun h => ?_, fun h => ?_⟩
  · have hX : ':' ∉ X.data := by simpa using h
    unfold extractArtistId extractId
    rw [if_pos (by rw [jsStartsWith_append])]
    have hpd : ("spotify:artist:" ++ X).data =
        "spotify".data ++ ':' :: ("artist".data ++ ':' :: X.data) := by
      rw [String.data_append]
      show ("spotify".data ++ ':' :: ("artist".data ++ ':' :: [])) ++ X.data = _
      rw [List.append_assoc]
      rfl
    rw [hpd, jsSplit_chunk _ _ _ (by decide), jsSplit_chunk _ _ _ (by decide),
      jsSplit_sepFree _ _ hX]
    exact strExt (by simp [List.getD])
  · have hX : ':' ∉ X.data := by simpa using h
    unfold extractTrackId extractId
    rw [if_pos (by rw [jsStartsWith_append])]
    have hpd : ("spotify:track:" ++ X).data =
        "spotify".data ++ ':' :: ("track".data ++ ':' :: X.data) := by
      rw [String.data_append]
      show ("spotify".data ++ ':' :: ("track".data ++ ':' :: [])) ++ X.data = _
      rw [List.append_assoc]
      rfl
    rw [hpd, jsSplit_chunk _ _ _ (by decide), jsSplit_chunk _ _ _ (by decide),
      jsSplit_sepFree _ _ hX]
    exact strExt (by simp [List.getD])
  · simp [extractArtistId, extractId, h]
  · simp [extractTrackId, extractId, h]

theorem identifier_normalization_w :
    ("abc" : String).data.contains ':' = false ∧
    extractArtistId ("spotify:artist:" ++ "abc") = "abc" ∧
    extractTrackId ("spotify:track:" ++ "abc") = "abc" ∧
    jsStartsWith "plainid" "spotify:artist:" = false ∧
    extractArtistId "plainid" = "plainid" :=
  ⟨by decide, ((identifier_normalization "abc" "plainid").1 (by decide)).1,
    ((identifier_normalization "abc" "plainid").1 (by decide)).2, by decide,
    (identifier_normalization "abc" "plainid").2.1 (by decide)⟩

/-- C2 counterexample: on `"spotify:artist:a:b"` — an identifier of the form
`scheme:kind:X` with `X = "a:b"` — normalization returns `"a"`, which is
neither `X` nor the unchanged input, so the claim as stated fails there. -/
theorem identifier_normalization_cex :
    extractArtistId "spotify:artist:a:b" = "a" ∧
    ("a" : String) ≠ "a:b" ∧ ("a" : String) ≠ "spotify:artist:a:b" := by
  refine ⟨by decide, by decide, by decide⟩

/-- C3: `getAccessToken` returns a cached, unexpired token with zero network
calls and unchanged state; with an empty or expired cache it performs exactly
one exchange call and, on success, caches the new token with
`expiresAt = now + expires_in * 1000`. -/
theorem token_cache_behavior (cache : Option TokenInfo) (t : TokenInfo)
    (now expiresIn : Int) (ex : Except String (String × Int)) (tok : String) :
    (cache = some t → now < t.expiresAt →
      getAccessToken cache now ex = (.ok t.accessToken, cache, 0)) ∧
    (cache = none → ex = .ok (tok, expiresIn) →
      getAccessToken cache now ex =
        (.ok tok, some ⟨tok, now + expiresIn * 1000⟩, 1)) ∧
    (cache = some t → t.expiresAt ≤ now → ex = .ok (tok, expiresIn) →
      getAccessToken cache now ex =
        (.ok tok, some ⟨tok, now + expiresIn * 1000⟩, 1)) := by
  refine ⟨fun hc hv => ?_, fun hc he => ?_, fun hc hv he => ?_⟩
  · subst hc
    simp [getAccessToken, hv]
  · subst hc; subst he
    simp [getAccessToken, renewToken]
  · subst hc; subst he
    simp [getAccessToken, renewToken, show ¬ now < t.expiresAt by omega]

theorem token_cache_behavior_w :
    getAccessToken (some ⟨"tok", 100⟩) 50 (.error "unused") =
      (.ok "tok", some ⟨"tok", 100⟩, 0) ∧
    getAccessToken none 7 (.ok ("fresh", 3600)) =
      (.ok "fresh", some ⟨"fresh", 7 + 3600 * 1000⟩, 1) ∧
    getAccessToken (some ⟨"old", 100⟩) 100 (.ok ("fresh", 60)) =
      (.ok "fresh", some ⟨"fresh", 100 + 60 * 1000⟩, 1) :=
  ⟨(token_cache_behavior (some ⟨"tok", 100⟩) ⟨"tok", 100⟩ 50 0 (.error "unused")
      "x").1 rfl (by decide),
   (token_cache_behavior none ⟨"x", 0⟩ 7 3600 (.ok ("fresh", 3600)) "fresh").2.1
      rfl rfl,
   (token_cache_behavior (some ⟨"old", 100⟩) ⟨"old", 100⟩ 100 60
      (.ok ("fresh", 60)) "fresh").2.2 rfl (by decide) rfl⟩

/-- C9: when the exchange call fails, `getAccessToken` surfaces an
authentication error (internal code, message naming the token failure) and the
cache is exactly what it was before the call. -/
theorem token_cache_failure (cache : Option TokenInfo) (t : TokenInfo)
    (now : Int) (e : String) :
    (cache = none →
      getAccessToken cache now (.error e) =
        (.error ⟨.internalError, "Failed to get Spotify access token: " ++ e⟩,
          none, 1)) ∧
    (cache = some t → t.expiresAt ≤ now →
      getAccessToken cache now (.error e) =
        (.error ⟨.internalError, "Failed to get Spotify access token: " ++ e⟩,
          some t, 1)) := by
  refine ⟨fun hc => ?_, fun hc hv => ?_⟩
  · subst hc
    simp [getAccessToken, renewToken]
  · subst hc
    simp [getAccessToken, renewToken, show ¬ now < t.expiresAt by omega]

theorem token_cache_failure_w :
    getAccessToken none 0 (.error "bad credentials") =
      (.error ⟨.internalError,
        "Failed to get Spotify access token: " ++ "bad credentials"⟩, none, 1) ∧
    getAccessToken (some ⟨"old", 10⟩) 10 (.error "bad credentials") =
      (.error ⟨.internalError,
        "Failed to get Spotify access token: " ++ "bad credentials"⟩,
        some ⟨"old", 10⟩, 1) :=
  ⟨(token_cache_failure none ⟨"x", 0⟩ 0 "bad credentials").1 rfl,
   (token_cache_failure (some ⟨"old", 10⟩) ⟨"old", 10⟩ 10 "bad credentials").2
      rfl (by decide)⟩

/-- C7: a scripting-runtime error whose message carries code `-1728` is
translated to the distinct application-not-running error; every other runtime
error becomes the generic execution-failure error carrying the runtime's
message (or `Unknown error` when no message is available). -/
theorem bridge_error_translation (m : String) :
    (jsIncludes m "-1728" = true → m ≠ "" →
      translateOsaError ⟨some m⟩ =
        ⟨.internalError, "Spotify application not found or not running."⟩) ∧
    (jsIncludes m "-1728" = false → m ≠ "" →
      translateOsaError ⟨some m⟩ =
        ⟨.internalError, "AppleScript execution failed: " ++ m⟩) ∧
    translateOsaError ⟨none⟩ =
      ⟨.internalError, "AppleScript execution failed: Unknown error"⟩ := by
  refine ⟨fun h1 h2 => ?_, fun h1 h2 => ?_, ?_⟩
  · have hm : (m == "") = false := beq_eq_false_iff_ne.mpr h2
    simp [translateOsaError, jsTruthyMsg, h1, hm]
  · have hm : (m == "") = false := beq_eq_false_iff_ne.mpr h2
    simp [translateOsaError, jsTruthyMsg, h1, hm]
  · simp [translateOsaError, jsTruthyMsg]

theorem bridge_error_translation_w :
    translateOsaError ⟨some "execution error (-1728)"⟩ =
      ⟨.internalError, "Spotify application not found or not running."⟩ ∧
    translateOsaError ⟨some "boom"⟩ =
      ⟨.internalError, "AppleScript execution failed: " ++ "boom"⟩ :=
  ⟨(bridge_error_translation "execution error (-1728)").1 (by decide) (by decide),
   (bridge_error_translation "boom").2.1 (by decide) (by decide)⟩

/-- C8: `spotify_play_track` rejects any uri without the `spotify:track:`
prefix with an invalid-params error and executes no script, and for a uri with
the prefix it hands exactly one script to the scripting runtime. -/
theorem play_track_guard (uri : String) :
    (jsStartsWith uri "spotify:track:" = false →
      spotifyPlayTrackCall uri =
        (.error ⟨.invalidParams,
          "Invalid Spotify track URI format. Expected \"spotify:track:TRACK_ID\"."⟩,
          [])) ∧
    (jsStartsWith uri "spotify:track:" = true →
      (spotifyPlayTrackCall uri).2 = [playTrackScript uri]) := by
  refine ⟨fun h => ?_, fun h => ?_⟩
  · simp [spotifyPlayTrackCall, h]
  · have hne : ¬ uri = "" := by
      intro he
      rw [he] at h
      exact absurd h (by decide)
    simp [spotifyPlayTrackCall, h, hne]

theorem play_track_guard_w :
    spotifyPlayTrackCall "not-a-uri" =
      (.error ⟨.invalidParams,
        "Invalid Spotify track URI format. Expected \"spotify:track:TRACK_ID\"."⟩,
        []) ∧
    (spotifyPlayTrackCall "spotify:track:abc").2 =
      [playTrackScript "spotify:track:abc"] :=
  ⟨(play_track_guard "not-a-uri").1 (by decide),
   (play_track_guard "spotify:track:abc").2 (by decide)⟩

/-- C1: a request for an undeclared tool name fails with method-not-found;
a request for a declared tool whose supplied argument object lacks some
declared-required field fails with invalid-params naming a missing field
(presence-only check), and only an `.ok` routing result ever reaches a
handler. -/
theorem dispatcher_validation (name : String) (args : Option JsArgs) :
    (name ∉ toolRequiredFields.map Prod.fst →
      dispatchRoute name args =
        .error ⟨.methodNotFound, "Unknown tool: " ++ name⟩) ∧
    (∀ req a, toolRequiredFields.lookup name = some req → args = some a →
      (∃ f ∈ req, hasKey a f = false) →
      ∃ f, f ∈ req ∧ hasKey a f = false ∧
        dispatchRoute name args =
          .error ⟨.invalidParams, "Missing required field: " ++ f⟩) := by
  constructor
  · intro h
    unfold dispatchRoute
    rw [lookup_eq_none_of_not_mem name _ h]
  · intro req a hl ha hex
    subst ha
    unfold dispatchRoute
    rw [hl]
    cases req with
    | nil => obtain ⟨f, hf, _⟩ := hex; cases hf
    | cons r rs =>
      have hexb : ∃ f ∈ r :: rs, (fun f => !(hasKey a f)) f = true := by
        obtain ⟨f, hf, hkey⟩ := hex
        exact ⟨f, hf, by simp [hkey]⟩
      obtain ⟨f0, hf0⟩ := find?_isSome_of_exists hexb
      refine ⟨f0, List.mem_of_find?_eq_some hf0, ?_, ?_⟩
      · have := List.find?_some hf0
        simpa using this
      · simp [validateArgs, hf0]

theorem dispatcher_validation_w :
    ("bogus_tool" ∉ toolRequiredFields.map Prod.fst ∧
      dispatchRoute "bogus_tool" none =
        .error ⟨.methodNotFound, "Unknown tool: " ++ "bogus_tool"⟩) ∧
    (∃ f, f ∈ ["query", "type"] ∧
      hasKey [("query", JsVal.str "x")] f = false ∧
      dispatchRoute "search" (some [("query", JsVal.str "x")]) =
        .error ⟨.invalidParams, "Missing required field: " ++ f⟩) :=
  ⟨⟨by decide, (dispatcher_validation "bogus_tool" none).1 (by decide)⟩,
   (dispatcher_validation "search" (some [("query", JsVal.str "x")])).2
     ["query", "type"] [("query", JsVal.str "x")] rfl rfl
     ⟨"type", by decide, by decide⟩⟩

/-- C5: invoking the declared tool `get_current_user_playlists` with any
argument object reaches its handler, whose request targets the
`/me/playlists` endpoint, and an upstream success is returned pretty-printed
(`JSON.stringify(result, null, 2)`) in the response envelope. -/
theorem current_user_playlists_flow (args : Option JsArgs)
    (upstream : String → Except McpError JsVal) (j : JsVal)
    (h : upstream (getCurrentUserPlaylistsPath (args.getD [])) = .ok j) :
    callGetCurrentUserPlaylists args upstream = .ok (stringifyPretty j) ∧
    jsStartsWith (getCurrentUserPlaylistsPath (args.getD []))
      "/me/playlists" = true := by
  constructor
  · have hroute : dispatchRoute "get_current_user_playlists" args =
        .ok (args.getD []) := rfl
    unfold callGetCurrentUserPlaylists
    rw [hroute]
    dsimp only
    rw [h]
  · exact jsStartsWith_append "/me/playlists" _

theorem current_user_playlists_flow_w :
    callGetCurrentUserPlaylists none (fun _ => .ok (JsVal.num 7)) =
      .ok (stringifyPretty (JsVal.num 7)) ∧
    jsStartsWith (getCurrentUserPlaylistsPath ((none : Option JsArgs).getD []))
      "/me/playlists" = true :=
  current_user_playlists_flow none (fun _ => .ok (JsVal.num 7)) (JsVal.num 7) rfl

/-- C6: the query builder drops undefined values, URL-encodes surviving keys
and values in insertion order, returns the empty string exactly when no pair
survives and otherwise a `?`-prefixed `&`-joined pair list; in particular
`build({a: 1, b: undefined, c: "x"}) = "?a=1&c=x"` and `build({}) = ""`. -/
theorem query_builder (params : List (String × Option Scalar)) :
    buildQueryString
        [("a", some (.num 1)), ("b", none), ("c", some (.str "x"))] =
      "?a=1&c=x" ∧
    buildQueryString [] = "" ∧
    buildQueryString params =
      buildQueryString (params.filter (fun kv => kv.2.isSome)) ∧
    (buildQueryString params = "" ↔
      params.filterMap (fun kv => kv.2.map (encodePair kv.1)) = []) ∧
    (∀ ps, params.filterMap (fun kv => kv.2.map (encodePair kv.1)) = ps →
      ps ≠ [] → buildQueryString params = "?" ++ jsJoin "&" ps) := by
  refine ⟨by decide, rfl, ?_, ?_, ?_⟩
  · have hfm := filterMap_skip_none (fun kv => kv.2.map (encodePair kv.1))
      (fun a ha => by simp [ha]) params
    unfold buildQueryString
    rw [hfm]
  · rw [buildQueryString_shape]
    cases h : params.filterMap (fun kv => kv.2.map (encodePair kv.1)) with
    | nil => simp
    | cons p ps =>
      simp only []
      constructor
      · intro hq
        have : ("?" ++ jsJoin "&" (p :: ps)).length = 0 := by rw [hq]; rfl
        rw [String.length_append] at this
        have h1 : ("?" : String).length = 1 := rfl
        omega
      · intro hc; cases hc
  · intro ps hps hne
    rw [buildQueryString_shape, hps]
    cases ps with
    | nil => exact absurd rfl hne
    | cons p pt => rfl

theorem query_builder_w :
    buildQueryString [("k", some (.str "v"))] = "?" ++ jsJoin "&" ["k=v"] :=
  (query_builder [("k", some (.str "v"))]).2.2.2.2 ["k=v"] (by decide) (by decide)

/-- C4 (amended): every handler family of the validation table rejects
out-of-bound arguments with an invalid-params error before producing any HTTP
request and produces a request otherwise — with the artist-top-tracks rule
read as the code enforces it: market present *and non-empty* (the JavaScript
guard `if (!args.market)` also rejects a present-but-empty market string). -/
theorem handlers_bound_validation
    (ma : MultipleArtistsArgs) (mb : MultipleAlbumsArgs)
    (mab : MultipleAudiobooksArgs) (tt : ArtistTopTracksArgs)
    (aa : ArtistAlbumsArgs) (bt : AlbumTracksArgs) (nr : NewReleasesArgs)
    (rc : RecommendationsArgs) :
    ((ma.ids.length = 0 ∨ ma.ids.length > 50) →
      ∃ msg, getMultipleArtists ma = .error ⟨.invalidParams, msg⟩) ∧
    (ma.ids.length ≠ 0 → ma.ids.length ≤ 50 →
      (getMultipleArtists ma).isOk = true) ∧
    ((mb.ids.length = 0 ∨ mb.ids.length > 20) →
      ∃ msg, getMultipleAlbums mb = .error ⟨.invalidParams, msg⟩) ∧
    (mb.ids.length ≠ 0 → mb.ids.length ≤ 20 →
      (getMultipleAlbums mb).isOk = true) ∧
    ((mab.ids.length = 0 ∨ mab.ids.length > 50) →
      ∃ msg, getMultipleAudiobooks mab = .error ⟨.invalidParams, msg⟩) ∧
    (mab.ids.length ≠ 0 → mab.ids.length ≤ 50 →
      (getMultipleAudiobooks mab).isOk = true) ∧
    ((aa.limit.getD 20 < 1 ∨ aa.limit.getD 20 > 50 ∨ aa.offset.getD 0 < 0) →
      ∃ msg, getArtistAlbums aa = .error ⟨.invalidParams, msg⟩) ∧
    (1 ≤ aa.limit.getD 20 → aa.limit.getD 20 ≤ 50 → 0 ≤ aa.offset.getD 0 →
      (getArtistAlbums aa).isOk = true) ∧
    ((bt.limit.getD 20 < 1 ∨ bt.limit.getD 20 > 50 ∨ bt.offset.getD 0 < 0) →
      ∃ msg, getAlbumTracks bt = .error ⟨.invalidParams, msg⟩) ∧
    (1 ≤ bt.limit.getD 20 → bt.limit.getD 20 ≤ 50 → 0 ≤ bt.offset.getD 0 →
      (getAlbumTracks bt).isOk = true) ∧
    ((nr.limit.getD 20 < 1 ∨ nr.limit.getD 20 > 50 ∨ nr.offset.getD 0 < 0) →
      ∃ msg, getNewReleases nr = .error ⟨.invalidParams, msg⟩) ∧
    (1 ≤ nr.limit.getD 20 → nr.limit.getD 20 ≤ 50 → 0 ≤ nr.offset.getD 0 →
      (getNewReleases nr).isOk = true) ∧
    (((rc.seed_tracks.getD []).length + (rc.seed_artists.getD []).length +
        (rc.seed_genres.getD []).length = 0 ∨
      rc.limit.getD 20 < 1 ∨ rc.limit.getD 20 > 100) →
      ∃ msg, getRecommendations rc = .error ⟨.invalidParams, msg⟩) ∧
    ((rc.seed_tracks.getD []).length + (rc.seed_artists.getD []).length +
        (rc.seed_genres.getD []).length ≠ 0 →
      1 ≤ rc.limit.getD 20 → rc.limit.getD 20 ≤ 100 →
      (getRecommendations rc).isOk = true) ∧
    ((tt.market = none ∨ tt.market = some "") →
      getArtistTopTracks tt =
        .error ⟨.invalidParams, "market parameter is required for top tracks"⟩) ∧
    (∀ m, tt.market = some m → m ≠ "" → (getArtistTopTracks tt).isOk = true) := by
  refine ⟨fun h => ?_, fun h0 h50 => ?_, fun h => ?_, fun h0 h20 => ?_,
    fun h => ?_, fun h0 h50 => ?_, fun h => ?_, fun h1 h2 h3 => ?_,
    fun h => ?_, fun h1 h2 h3 => ?_, fun h => ?_, fun h1 h2 h3 => ?_,
    fun h => ?_, fun hs h1 h2 => ?_, fun h => ?_, fun m hm hne => ?_⟩
  · simp only [getMultipleArtists]
    rcases h with h | h
    · rw [if_pos h]; exact ⟨_, rfl⟩
    · rw [if_neg (by omega), if_pos h]; exact ⟨_, rfl⟩
  · simp only [getMultipleArtists]
    rw [if_neg h0, if_neg (by omega)]
    rfl
  · simp only [getMultipleAlbums]
    rcases h with h | h
    · rw [if_pos h]; exact ⟨_, rfl⟩
    · rw [if_neg (by omega), if_pos h]; exact ⟨_, rfl⟩
  · simp only [getMultipleAlbums]
    rw [if_neg h0, if_neg (by omega)]
    rfl
  · simp only [getMultipleAudiobooks]
    rcases h with h | h
    · rw [if_pos h]; exact ⟨_, rfl⟩
    · rw [if_neg (by omega), if_pos h]; exact ⟨_, rfl⟩
  · simp only [getMultipleAudiobooks]
    rw [if_neg h0, if_neg (by omega)]
    rfl
  · simp only [getArtistAlbums]
    rcases h with h | h | h
    · rw [if_pos (Or.inl h)]; exact ⟨_, rfl⟩
    · rw [if_pos (Or.inr h)]; exact ⟨_, rfl⟩
    · by_cases hl : aa.limit.getD 20 < 1 ∨ aa.limit.getD 20 > 50
      · rw [if_pos hl]; exact ⟨_, rfl⟩
      · rw [if_neg hl, if_pos h]; exact ⟨_, rfl⟩
  · simp only [getArtistAlbums]
    rw [if_neg (by omega), if_neg (by omega)]
    rfl
  · simp only [getAlbumTracks]
    rcases h with h | h | h
    · rw [if_pos (Or.inl h)]; exact ⟨_, rfl⟩
    · rw [if_pos (Or.inr h)]; exact ⟨_, rfl⟩
    · by_cases hl : bt.limit.getD 20 < 1 ∨ bt.limit.getD 20 > 50
      · rw [if_pos hl]; exact ⟨_, rfl⟩
      · rw [if_neg hl, if_pos h]; exact ⟨_, rfl⟩
  · simp only [getAlbumTracks]
    rw [if_neg (by omega), if_neg (by omega)]
    rfl
  · simp only [getNewReleases]
    rcases h with h | h | h
    · rw [if_pos (Or.inl h)]; exact ⟨_, rfl⟩
    · rw [if_pos (Or.inr h)]; exact ⟨_, rfl⟩
    · by_cases hl : nr.limit.getD 20 < 1 ∨ nr.limit.getD 20 > 50
      · rw [if_pos hl]; exact ⟨_, rfl⟩
      · rw [if_neg hl, if_pos h]; exact ⟨_, rfl⟩
  · simp only [getNewReleases]
    rw [if_neg (by omega), if_neg (by omega)]
    rfl
  · simp only [getRecommendations]
    rcases h with h | h | h
    · rw [if_pos h]; exact ⟨_, rfl⟩
    · by_cases hs : (rc.seed_tracks.getD []).length +
          (rc.seed_artists.getD []).length + (rc.seed_genres.getD []).length = 0
      · rw [if_pos hs]; exact ⟨_, rfl⟩
      · rw [if_neg hs, if_pos (Or.inl h)]; exact ⟨_, rfl⟩
    · by_cases hs : (rc.seed_tracks.getD []).length +
          (rc.seed_artists.getD []).length + (rc.seed_genres.getD []).length = 0
      · rw [if_pos hs]; exact ⟨_, rfl⟩
      · rw [if_neg hs, if_pos (Or.inr h)]; exact ⟨_, rfl⟩
  · simp only [getRecommendations]
    rw [if_neg hs, if_neg (by omega)]
    rfl
  · rcases h with h | h
    · simp [getArtistTopTracks, h]
    · simp [getArtistTopTracks, h]
  · simp only [getArtistTopTracks, hm]
    rw [if_neg hne]
    rfl

theorem handlers_bound_validation_w :
    (getMultipleArtists ⟨List.replicate 51 "a"⟩).isOk = false ∧
    (getMultipleArtists ⟨["a"]⟩).isOk = true ∧
    (getMultipleAlbums ⟨List.replicate 21 "a"⟩).isOk = false ∧
    (getMultipleAlbums ⟨["a"]⟩).isOk = true ∧
    (getMultipleAudiobooks ⟨[], none⟩).isOk = false ∧
    (getMultipleAudiobooks ⟨["a"], none⟩).isOk = true ∧
    (getArtistAlbums ⟨"a", none, some 0, none⟩).isOk = false ∧
    (getArtistAlbums ⟨"a", none, some 50, some 0⟩).isOk = true ∧
    (getAlbumTracks ⟨"a", some 51, none⟩).isOk = false ∧
    (getAlbumTracks ⟨"a", none, none⟩).isOk = true ∧
    (getNewReleases ⟨none, none, some (-1)⟩).isOk = false ∧
    (getNewReleases ⟨none, none, none⟩).isOk = true ∧
    (getRecommendations ⟨none, none, none, none⟩).isOk = false ∧
    (getRecommendations ⟨none, none, some ["pop"], none⟩).isOk = true ∧
    (getArtistTopTracks ⟨"a", none⟩).isOk = false ∧
    (getArtistTopTracks ⟨"a", some "US"⟩).isOk = true := by
  have t1 := handlers_bound_validation ⟨List.replicate 51 "a"⟩ ⟨["a"]⟩
    ⟨[], none⟩ ⟨"a", none⟩ ⟨"a", none, some 0, none⟩ ⟨"a", some 51, none⟩
    ⟨none, none, some (-1)⟩ ⟨none, none, none, none⟩
  have t2 := handlers_bound_validation ⟨["a"]⟩ ⟨List.replicate 21 "a"⟩
    ⟨["a"], none⟩ ⟨"a", some "US"⟩ ⟨"a", none, some 50, some 0⟩
    ⟨"a", none, none⟩ ⟨none, none, none⟩ ⟨none, none, some ["pop"], none⟩
  obtain ⟨a1, -, -, b2, c1, -, d1, -, e1, -, f1, -, g1, -, h1, -⟩ := t1
  obtain ⟨-, a2, b1, -, -, c2, -, d2, -, e2, -, f2, -, g2, -, h2⟩ := t2
  obtain ⟨m1, hm1⟩ := a1 (by simp)
  obtain ⟨m3, hm3⟩ := b1 (by simp)
  obtain ⟨m5, hm5⟩ := c1 (by simp)
  obtain ⟨m7, hm7⟩ := d1 (by simp)
  obtain ⟨m9, hm9⟩ := e1 (by simp)
  obtain ⟨m11, hm11⟩ := f1 (by simp)
  obtain ⟨m13, hm13⟩ := g1 (by simp)
  refine ⟨by rw [hm1]; rfl, a2 (by simp) (by simp),
    by rw [hm3]; rfl, b2 (by simp) (by simp),
    by rw [hm5]; rfl, c2 (by simp) (by simp),
    by rw [hm7]; rfl, d2 (by simp) (by simp) (by simp),
    by rw [hm9]; rfl, e2 (by simp) (by simp) (by simp),
    by rw [hm11]; rfl, f2 (by simp) (by simp) (by simp),
    by rw [hm13]; rfl, g2 (by simp) (by simp) (by simp),
    by rw [h1 (by simp)]; rfl, h2 "US" rfl (by simp)⟩

/-- C4 counterexample: `get_artist_top_tracks` with a present but empty
`market` string satisfies the table's "market present" rule, yet the handler
raises invalid-params instead of proceeding to the HTTP request. -/
theorem handlers_bound_validation_cex :
    getArtistTopTracks ⟨"a", some ""⟩ =
      .error ⟨.invalidParams, "market parameter is required for top tracks"⟩ ∧
    (getArtistTopTracks ⟨"a", some ""⟩).isOk = false := by
  exact ⟨rfl, rfl⟩

/-- C10: the outgoing `q` value of `search` is the caller's query encoded by
`encodeURIComponent` and then encoded a second time by the query builder's
`URLSearchParams`, and whenever the first encoding changes the query at all
the value sent upstream differs from the singly-encoded query. -/
theorem search_double_encodes (q ty : String) :
    search ⟨q, ty, none⟩ =
      .ok ("/search?q=" ++ formEncode (encodeURIComponent q) ++ "&type=" ++
        formEncode ty ++ "&limit=20") ∧
    (encodeURIComponent q ≠ q →
      formEncode (encodeURIComponent q) ≠ encodeURIComponent q) := by
  constructor
  · show Except.ok ("/search" ++ buildQueryString
      [("q", some (.str (encodeURIComponent q))), ("type", some (.str ty)),
       ("limit", some (.num 20))]) = _
    have hbq : buildQueryString
        [("q", some (.str (encodeURIComponent q))), ("type", some (.str ty)),
         ("limit", some (.num 20))] =
        "?" ++ jsJoin "&" [encodePair "q" (.str (encodeURIComponent q)),
          encodePair "type" (.str ty), encodePair "limit" (.num 20)] := by
      rw [buildQueryString_shape]
      exact rfl
    rw [hbq]
    apply congrArg
    apply strExt
    have hq : formEncode "q" = "q" := rfl
    have hty : formEncode "type" = "type" := rfl
    have hlim : formEncode "limit" = "limit" := rfl
    have h20 : Scalar.toStr (.num 20) = "20" := rfl
    have h20f : formEncode "20" = "20" := rfl
    simp only [encodePair, Scalar.toStr, hq, hty, hlim, h20, h20f, jsJoin]
    have d1 : ("/search" : String).data = ['/', 's', 'e', 'a', 'r', 'c', 'h'] := rfl
    have d2 : ("?" : String).data = ['?'] := rfl
    have d3 : ("q" : String).data = ['q'] := rfl
    have d4 : ("=" : String).data = ['='] := rfl
    have d5 : ("&" : String).data = ['&'] := rfl
    have d6 : ("type" : String).data = ['t', 'y', 'p', 'e'] := rfl
    have d7 : ("limit" : String).data = ['l', 'i', 'm', 'i', 't'] := rfl
    have d8 : ("20" : String).data = ['2', '0'] := rfl
    have d9 : ("/search?q=" : String).data =
      ['/', 's', 'e', 'a', 'r', 'c', 'h', '?', 'q', '='] := rfl
    have d10 : ("&type=" : String).data = ['&', 't', 'y', 'p', 'e', '='] := rfl
    have d11 : ("&limit=20" : String).data =
      ['&', 'l', 'i', 'm', 'i', 't', '=', '2', '0'] := rfl
    have d12 : (formEncode (toString (20 : Int))).data = ['2', '0'] := rfl
    simp [String.data_append, d1, d2, d3, d4, d5, d6, d7, d8, d9, d10, d11, d12,
      List.cons_append, List.nil_append, List.append_assoc]
  · intro h
    exact formEncode_ne_of_percent _ (encodeURIComponent_id_or_percent q h)

theorem search_double_encodes_w :
    search ⟨"a b", "track", none⟩ =
      .ok ("/search?q=" ++ formEncode (encodeURIComponent "a b") ++ "&type=" ++
        formEncode "track" ++ "&limit=20") ∧
    formEncode (encodeURIComponent "a b") ≠ encodeURIComponent "a b" :=
  ⟨(search_double_encodes "a b" "track").1,
   (search_double_encodes "a b" "track").2 (by decide)⟩
